import Mathlib

/-!
Verification of the product query-and-authorization service (`src/main.py`)
against its natural-language specification.

The Python source is shallowly embedded: pure validation logic is translated
function by function; the Mongo collection is modelled as an association list
of (identifier, product) documents with explicit state passing; the `jose`
JWT library is modelled abstractly (a signed token is a record of the signing
key and its payload, and `jwt.decode` checks the key and the expiry); prices
(Python `float`) are modelled as rationals.
-/

namespace Bootcamp

/-- Error taxonomy of the spec (§7).  The REST surface externalizes these as
HTTP status codes, the GraphQL surface as structured errors; the embedding
keeps the tag only. -/
inductive Err where
  | invalidValue
  | invalidRange
  | invalidSortField
  | invalidOrder
  | unauthorized
  | forbidden
  | authenticationFailed
  | validationError
  | notFound
  deriving DecidableEq

/-- A product document: `name` and `price` (`src/main.py` lines 92-94,
248-256).  Python `float` prices are modelled as rationals. -/
structure Product where
  name : String
  price : Rat
  deriving DecidableEq

/-- `SECRET_KEY = "super-secret-key"` (`src/main.py` line 16). -/
def SECRET_KEY : String := "super-secret-key"

/-- `ACCESS_TOKEN_EXPIRE_MINUTES = 30` (`src/main.py` line 18). -/
def ACCESS_TOKEN_EXPIRE_MINUTES : Int := 30

/-- `fake_users_db` (`src/main.py` lines 24-26): the single known identity.
bcrypt hashing is modelled by storing the plain password; `verify_password`
(bcrypt verify against the stored hash) is modelled as string equality. -/
def fake_users_db : List (String × String) := [("alice", "wonderland")]

/-- `SORTABLE_FIELDS = {"name", "price"}` (`src/main.py` line 96). -/
def SORTABLE_FIELDS : List String := ["name", "price"]

/-- `VALID_BEARER_TOKENS = {"bearer-abc-123"}` (`src/main.py` line 100). -/
def VALID_BEARER_TOKENS : List String := ["bearer-abc-123"]

/-- Python `str.lower()`, modelled per code point. -/
def pyLower (s : String) : String :=
  ⟨s.toList.map Char.toLower⟩

/-- Python `str.startswith(pre)`, modelled per code point. -/
def pyStartsWith (pre s : String) : Bool :=
  pre.toList.isPrefixOf s.toList

/-- Python `s[n:]` on code points. -/
def pyDrop (s : String) (n : Nat) : String :=
  ⟨s.toList.drop n⟩

/-- Python `str.strip()`: drop leading and trailing whitespace. -/
def pyStrip (s : String) : String :=
  ⟨(((s.toList.dropWhile Char.isWhitespace).reverse).dropWhile
      Char.isWhitespace).reverse⟩

/-- `verify_password` (`src/main.py` lines 28-29); bcrypt verification of the
plain password against the stored hash is modelled as equality with the
stored password. -/
def verify_password (plain stored : String) : Bool :=
  plain = stored

/-- `authenticate_user` (`src/main.py` lines 31-37): look the username up in
`fake_users_db`; `none` when absent or when the password does not verify. -/
def authenticate_user (username password : String) : Option String :=
  match fake_users_db.find? (fun u => u.1 = username) with
  | none => none
  | some u => if verify_password password u.2 then some u.1 else none

/-- A decoded JWT payload.  The code only ever stores the claims it puts in
the dict handed to `jwt.encode`; `sub` and `iat` are optional claims, `exp`
is always present (added by `create_access_token`).  Timestamps are seconds
as integers. -/
structure Payload where
  sub : Option String
  iat : Option Int
  exp : Int
  deriving DecidableEq

/-- A JWT as produced by `jose.jwt.encode(payload, key, HS256)`: modelled as
the signing key together with the encoded payload (signature validity is key
equality on decode). -/
structure SignedToken where
  key : String
  payload : Payload
  deriving DecidableEq

/-- `create_access_token` (`src/main.py` lines 39-43) as called by `login`
with `data={"sub": username}` and no explicit delta: copies the data, adds
`exp = now + 30 minutes`, and signs with `SECRET_KEY`.  Note that the payload
dict is exactly `{"sub": ..., "exp": ...}` — `jose` adds no `iat` claim. -/
def create_access_token (now : Int) (username : String) : SignedToken :=
  { key := SECRET_KEY
    payload :=
      { sub := some username
        iat := none
        exp := now + ACCESS_TOKEN_EXPIRE_MINUTES * 60 } }

/-- `POST /token` (`login`, `src/main.py` lines 204-210): authenticate the
form credentials, raise 400 (`AuthenticationFailed` in the spec taxonomy)
when rejected, otherwise issue the access token. -/
def login (now : Int) (username password : String) : Except Err SignedToken :=
  match authenticate_user username password with
  | none => .error .authenticationFailed
  | some u => .ok (create_access_token now u)

/-- `jose.jwt.decode(token, secret, [HS256])` at clock time `now`, modelled on
the structured token: signature check is key equality, and an
`ExpiredSignatureError` is raised when the `exp` claim is in the past. -/
def jwtDecode (secret : String) (now : Int) (tok : SignedToken) :
    Except Unit Payload :=
  if tok.key = secret then
    if now ≤ tok.payload.exp then .ok tok.payload else .error ()
  else .error ()

/-- The wire-level decode oracle: `env` maps token strings to the signed
tokens they encode (a string outside `env` is undecodable garbage and raises
`JWTError`). -/
def decodeWith (secret : String) (now : Int)
    (env : List (String × SignedToken)) (s : String) : Except Unit Payload :=
  match env.find? (fun e => e.1 = s) with
  | none => .error ()
  | some e => jwtDecode secret now e.2

/-- `_require_bearer_username_from_request` (`src/main.py` lines 217-242),
the gate of the three GraphQL mutations.  `decode` stands for
`jwt.decode(·, SECRET_KEY, [ALGORITHM])`.  The header check is
`auth.lower().startswith("bearer ")`; the token is everything after the first
space, stripped; a missing or empty (`if not username`) `sub` claim is
rejected.  The returned subject is NOT looked up in `fake_users_db`. -/
def requireBearerUsername (decode : String → Except Unit Payload)
    (authHeader : Option String) : Except Err String :=
  match authHeader with
  | none => .error .unauthorized
  | some auth =>
    if pyStartsWith "bearer " (pyLower auth) then
      match decode (pyStrip (pyDrop auth 7)) with
      | .error _ => .error .unauthorized
      | .ok payload =>
        match payload.sub with
        | none => .error .unauthorized
        | some u => if u = "" then .error .unauthorized else .ok u
    else .error .unauthorized

/-- The `OAuth2PasswordBearer` dependency (`src/main.py` line 21): FastAPI
extracts the credential after the `Bearer ` scheme (matched
case-insensitively) or raises 401 when the header is absent or the scheme is
wrong. -/
def oauth2Extract (authHeader : Option String) : Except Err String :=
  match authHeader with
  | none => .error .unauthorized
  | some auth =>
    if pyStartsWith "bearer " (pyLower auth) then .ok (pyDrop auth 7)
    else .error .unauthorized

/-- `extract_valid_bearer_or_raise` (`src/main.py` lines 114-125), the gate
of the `secret_products` GraphQL field.  `headers.get("Authorization", "")`
defaults to the empty string, so the header is a plain string here.  The
prefix check is case-sensitive (`auth.startswith("Bearer ")`); the token is
compared against the fixed allow-set. -/
def extract_valid_bearer_or_raise (auth : String) : Except Err String :=
  if pyStartsWith "Bearer " auth then
    let token := pyStrip (pyDrop auth 7)
    if VALID_BEARER_TOKENS.contains token then .ok token
    else .error .forbidden
  else .error .unauthorized

/-- The Mongo `products` collection, modelled as an association list of
(identifier, product) documents in insertion order, together with the next
fresh identifier.  `ObjectId`s are modelled as naturals. -/
structure DocStore where
  docs : List (Nat × Product)
  nextId : Nat
  deriving DecidableEq

/-- `collection.insert_one(doc)`: append the document and return the
collection-assigned identifier. -/
def insert_one (s : DocStore) (p : Product) : DocStore × Nat :=
  ({ docs := s.docs ++ [(s.nextId, p)], nextId := s.nextId + 1 }, s.nextId)

/-- `collection.update_one({"_id": oid}, {"$set": {name, price}})`: set the
fields of the matching document and return the matched count. -/
def update_one (s : DocStore) (oid : Nat) (p : Product) : DocStore × Nat :=
  if (s.docs.find? (fun d => d.1 = oid)).isSome then
    ({ s with docs := s.docs.map (fun d => if d.1 = oid then (d.1, p) else d) }, 1)
  else (s, 0)

/-- `collection.delete_one({"_id": oid})`: remove the matching document and
return the deleted count. -/
def delete_one (s : DocStore) (oid : Nat) : DocStore × Nat :=
  if (s.docs.find? (fun d => d.1 = oid)).isSome then
    ({ s with docs := s.docs.filter (fun d => d.1 ≠ oid) }, 1)
  else (s, 0)

/-- `collection.find_one({"_id": oid})`, projected to the product fields. -/
def find_by_id (s : DocStore) (oid : Nat) : Option Product :=
  (s.docs.find? (fun d => d.1 = oid)).map (fun d => d.2)

/-- The price clause of a compiled Mongo query: optional `$gte` / `$lte`. -/
structure PriceCond where
  gte : Option Rat
  lte : Option Rat
  deriving DecidableEq

/-- A compiled Mongo query dict as built by both list surfaces: an optional
case-insensitive name pattern (`{"$regex": ..., "$options": "i"}`) and an
optional price clause. -/
structure MongoQuery where
  nameRegex : Option String
  price : Option PriceCond
  deriving DecidableEq

/-- Query construction shared verbatim by `list_products` (lines 162-171) and
`Query.all_products` (lines 296-305): `if name_contains:` is Python
truthiness, so `None` and `""` both mean "no name clause", while any other
string (whitespace included) is installed as the regex; the price clause is
added when either bound is present. -/
def buildQuery (name_contains : Option String) (min_price max_price : Option Rat) :
    MongoQuery :=
  { nameRegex :=
      match name_contains with
      | none => none
      | some s => if s = "" then none else some s
    price :=
      if min_price.isSome || max_price.isSome then
        some { gte := min_price, lte := max_price }
      else none }

/-- The PCRE metacharacters.  A pattern containing any of them is an actual
regular expression (e.g. "." matches any character), whose semantics this
model does not reproduce. -/
def regexMetachars : String := "\\^$.|?*+()[]\x7b\x7d"

/-- Whether a pattern is a literal: free of regex metacharacters.  Only for
such patterns does Mongo's `$regex` coincide with substring matching. -/
def regexLiteral (pat : String) : Bool :=
  pat.toList.all (fun c => !(regexMetachars.toList.contains c))

/-- Mongo's `$regex` with `$options: "i"`, modelled as case-insensitive
substring containment.  This is the real `$regex` semantics only for
patterns with `regexLiteral = true`; theorems about the name clause are
stated under that hypothesis. -/
def ciContains (pat s : String) : Bool :=
  decide ((pyLower pat).toList <:+: (pyLower s).toList)

/-- Whether a document satisfies a compiled query. -/
def matchesQuery (q : MongoQuery) (p : Product) : Bool :=
  (match q.nameRegex with
   | none => true
   | some pat => ciContains pat p.name)
  &&
  (match q.price with
   | none => true
   | some c =>
     (match c.gte with
      | none => true
      | some m => decide (m ≤ p.price))
     &&
     (match c.lte with
      | none => true
      | some m => decide (p.price ≤ m)))

/-- Lexicographic comparison of code-point sequences (the backend's string
collation). -/
def lexLe : List Char → List Char → Bool
  | [], _ => true
  | _ :: _, [] => false
  | a :: as, b :: bs =>
    if a < b then true else if b < a then false else lexLe as bs

/-- Ordering on products by the sort field (`name` lexicographic or
`price`). -/
def fieldLe (sort_by : String) (a b : Product) : Bool :=
  if sort_by = "price" then decide (a.price ≤ b.price)
  else lexLe a.name.toList b.name.toList

/-- Sort comparator for direction `1` (ascending) or `-1` (descending). -/
def sortLe (sort_by : String) (dir : Int) (a b : Product) : Bool :=
  if dir = 1 then fieldLe sort_by a b else fieldLe sort_by b a

/-- Insert into a sorted list (model of the backend's sort). -/
def insertSorted (le : Product → Product → Bool) (x : Product) :
    List Product → List Product
  | [] => [x]
  | y :: ys => if le x y then x :: y :: ys else y :: insertSorted le x ys

/-- The backend's `.sort(field, dir)` modifier, modelled as insertion sort
with the comparator above. -/
def sortProducts (le : Product → Product → Bool) : List Product → List Product
  | [] => []
  | x :: xs => insertSorted le x (sortProducts le xs)

/-- `col.find(query).skip(skip).limit(limit).sort(field, dir)`: Mongo applies
the sort before skip and limit regardless of the chaining order. -/
def runFind (s : DocStore) (q : MongoQuery) (skip limit : Nat)
    (sort_by : String) (dir : Int) : List Product :=
  let filtered := (s.docs.map (fun d => d.2)).filter (matchesQuery q)
  ((sortProducts (sortLe sort_by dir) filtered).drop skip).take limit

/-- Pydantic validation of the `Product` body (`src/main.py` lines 92-94):
`name` constrained by `min_length=2, max_length=80` (characters), `price` by
`ge=0.0`; any violation is a 422 `ValidationError`. -/
def validateProduct (name : String) (price : Rat) : Except Err Product :=
  if 2 ≤ name.length ∧ name.length ≤ 80 then
    if 0 ≤ price then .ok { name := name, price := price }
    else .error .validationError
  else .error .validationError

/-- `POST /products` (`create_product`, `src/main.py` lines 137-141): the
body is validated by pydantic before the handler runs; the handler inserts
the document and returns its new identifier. -/
def create_product (s : DocStore) (name : String) (price : Rat) :
    Except Err (DocStore × Nat) :=
  match validateProduct name price with
  | .error e => .error e
  | .ok p => .ok (insert_one s p)

/-- `GET /products` (`list_products`, `src/main.py` lines 143-180).  The
first five checks are FastAPI's declared parameter constraints
(`Query(100, ge=1, le=200)`, `Query(0, ge=0, le=10_000)`,
`Literal["asc", "desc"]`, `Query(None, ge=0.0)` twice): FastAPI validates
them before the handler and rejects violations with a 422 error — it never
clamps.  The last two checks are the handler's own 400s. -/
def list_products (s : DocStore) (limit skip : Int) (sort_by order : String)
    (name_contains : Option String) (min_price max_price : Option Rat) :
    Except Err (List Product) :=
  if limit < 1 ∨ 200 < limit then .error .invalidValue
  else if skip < 0 ∨ 10000 < skip then .error .invalidValue
  else if order ≠ "asc" ∧ order ≠ "desc" then .error .invalidOrder
  else if (match min_price with | some m => decide (m < 0) | none => false) then
    .error .invalidValue
  else if (match max_price with | some m => decide (m < 0) | none => false) then
    .error .invalidValue
  else if ¬ SORTABLE_FIELDS.contains sort_by then .error .invalidSortField
  else if (match min_price, max_price with
           | some mn, some mx => decide (mx < mn)
           | _, _ => false) then .error .invalidRange
  else
    let q := buildQuery name_contains min_price max_price
    let dir : Int := if order = "asc" then 1 else -1
    .ok (runFind s q skip.toNat limit.toNat sort_by dir)

/-- GraphQL `Query.all_products` (`src/main.py` lines 269-313).  All checks
are explicit in the resolver body, in source order: limit, skip, sort field,
order (matched case-insensitively), and the bound pair.  There is no
negativity check on the price bounds on this surface. -/
def gql_all_products (s : DocStore) (name_contains : Option String)
    (min_price max_price : Option Rat) (limit skip : Int)
    (sort_by order : String) : Except Err (List Product) :=
  if limit < 1 ∨ 200 < limit then .error .invalidValue
  else if skip < 0 ∨ 10000 < skip then .error .invalidValue
  else if ¬ SORTABLE_FIELDS.contains sort_by then .error .invalidSortField
  else if pyLower order ≠ "asc" ∧ pyLower order ≠ "desc" then
    .error .invalidOrder
  else if (match min_price, max_price with
           | some mn, some mx => decide (mx < mn)
           | _, _ => false) then .error .invalidRange
  else
    let q := buildQuery name_contains min_price max_price
    let dir : Int := if pyLower order = "asc" then 1 else -1
    .ok (runFind s q skip.toNat limit.toNat sort_by dir)

/-- The GraphQL mutation result type (`src/main.py` lines 258-261). -/
structure MutationResult where
  success : Bool
  message : String
  deriving DecidableEq

/-- GraphQL `Mutation.update_product` (`src/main.py` lines 339-351): bearer
gate first (an auth failure is a GraphQL error, modelled as `.error`);
`ObjectId(id)` parsing is modelled by the `Option Nat` argument (`none` for a
malformed identifier string); parse failure and "no document matched" are
returned as ordinary `MutationResult` values, not errors. -/
def update_product (decode : String → Except Unit Payload)
    (authHeader : Option String) (s : DocStore) (oid : Option Nat)
    (name : String) (price : Rat) : Except Err (DocStore × MutationResult) :=
  match requireBearerUsername decode authHeader with
  | .error e => .error e
  | .ok _ =>
    match oid with
    | none => .ok (s, { success := false, message := "Invalid product ID." })
    | some i =>
      let r := update_one s i { name := name, price := price }
      if r.2 = 0 then
        .ok (r.1, { success := false, message := "Product not found." })
      else .ok (r.1, { success := true, message := "Product updated." })

/-- GraphQL `Mutation.delete_product` (`src/main.py` lines 353-365): same
shape as `update_product` over `delete_one`. -/
def delete_product (decode : String → Except Unit Payload)
    (authHeader : Option String) (s : DocStore) (oid : Option Nat) :
    Except Err (DocStore × MutationResult) :=
  match requireBearerUsername decode authHeader with
  | .error e => .error e
  | .ok _ =>
    match oid with
    | none => .ok (s, { success := false, message := "Invalid product ID." })
    | some i =>
      let r := delete_one s i
      if r.2 = 0 then
        .ok (r.1, { success := false, message := "Product not found." })
      else .ok (r.1, { success := true, message := "Product deleted." })

/-- GraphQL `Query.secret_products` (`src/main.py` lines 316-327): bearer
allow-set gate, then `col.find().limit(3)` — no filter, sort, paging or any
other parameter, just the first three documents. -/
def secret_products (s : DocStore) (authHeader : String) :
    Except Err (List Product) :=
  match extract_valid_bearer_or_raise authHeader with
  | .error e => .error e
  | .ok _ => .ok ((s.docs.map (fun d => d.2)).take 3)

/-! ### Concrete fixtures used by witnesses and counterexamples -/

/-- The empty collection. -/
def emptyStore : DocStore := { docs := [], nextId := 0 }

/-- A collection holding one product named "AB" priced 5. -/
def storeAB : DocStore :=
  { docs := [(0, { name := "AB", price := 5 })], nextId := 1 }

/-- A collection holding five products. -/
def store5 : DocStore :=
  { docs := [(0, { name := "P0", price := 1 }), (1, { name := "P1", price := 2 }),
             (2, { name := "P2", price := 3 }), (3, { name := "P3", price := 4 }),
             (4, { name := "P4", price := 5 })],
    nextId := 5 }

/-- A session token for the known identity "alice", issued at time 0. -/
def aliceTok : SignedToken := create_access_token 0 "alice"

/-- A token signed with the process secret and unexpired at time 0, but whose
subject "mallory" is not in `fake_users_db`. -/
def malloryTok : SignedToken :=
  { key := SECRET_KEY
    payload := { sub := some "mallory", iat := none, exp := 1800 } }

/-- Wire environment: which signed tokens the two token strings decode to. -/
def tokenEnv : List (String × SignedToken) :=
  [("tok-alice", aliceTok), ("tok-mallory", malloryTok)]

/-! ### C1 — page-size validation: reject versus clamp -/

/-- C1 counterexample: the claim says the REST surface "never fails but
returns a clamped limit within [1,200]" for out-of-range limits; in the code
`limit: int = Query(100, ge=1, le=200)` makes FastAPI reject `limit = 201`
with a validation error — it does not clamp. -/
theorem C1_counterexample :
    list_products emptyStore 201 0 "name" "asc" none none none =
      .error .invalidValue := rfl

/-- C1 (amended): for every integer limit outside [1,200] BOTH surfaces fail
(REST with a request-validation error, GraphQL with `InvalidValue`); neither
clamps.  For limit inside [1,200] both surfaces accept it unchanged. -/
theorem C1_amended (s : DocStore) (limit : Int) :
    ((limit < 1 ∨ 200 < limit) →
      list_products s limit 0 "name" "asc" none none none =
          .error .invalidValue
      ∧ gql_all_products s none none none limit 0 "name" "asc" =
          .error .invalidValue)
  ∧ (1 ≤ limit → limit ≤ 200 →
      list_products s limit 0 "name" "asc" none none none =
          .ok (runFind s (buildQuery none none none) 0 limit.toNat "name" 1)
      ∧ gql_all_products s none none none limit 0 "name" "asc" =
          .ok (runFind s (buildQuery none none none) 0 limit.toNat "name" 1)) := by
  constructor
  · intro h
    constructor
    · unfold list_products
      rw [if_pos h]
    · unfold gql_all_products
      rw [if_pos h]
  · intro h1 h2
    have hc : ¬ (limit < 1 ∨ 200 < limit) := by omega
    constructor
    · unfold list_products
      rw [if_neg hc]
      rfl
    · unfold gql_all_products
      rw [if_neg hc]
      rfl

/-- C1 witness: the amended theorem at limit 300 (rejected on both surfaces)
and at limit 100 (accepted unchanged on both surfaces). -/
theorem C1_witness :
    (list_products emptyStore 300 0 "name" "asc" none none none =
        .error .invalidValue
      ∧ gql_all_products emptyStore none none none 300 0 "name" "asc" =
        .error .invalidValue)
  ∧ (list_products emptyStore 100 0 "name" "asc" none none none =
        .ok (runFind emptyStore (buildQuery none none none) 0
              (100 : Int).toNat "name" 1)
      ∧ gql_all_products emptyStore none none none 100 0 "name" "asc" =
        .ok (runFind emptyStore (buildQuery none none none) 0
              (100 : Int).toNat "name" 1)) :=
  ⟨(C1_amended emptyStore 300).1 (by decide),
   (C1_amended emptyStore 100).2 (by decide) (by decide)⟩

/-! ### C4 — entity invariants on create -/

/-- C4 counterexample: the name "a" is non-empty text within the length bound
(length 1 ≤ 80) and the price 1 is non-negative, so the claim says create
succeeds; pydantic's `min_length=2` rejects it with a `ValidationError`. -/
theorem C4_counterexample :
    create_product emptyStore "a" 1 = .error .validationError
  ∧ "a" ≠ "" ∧ "a".length ≤ 80 ∧ (0 : Rat) ≤ 1 :=
  ⟨rfl, by decide, by decide, by decide⟩

/-- C4 (amended): create succeeds exactly when the name length is between 2
and 80 characters (not merely non-empty) and the price is non-negative;
otherwise it fails with `ValidationError`. -/
theorem C4_amended (s : DocStore) (name : String) (price : Rat) :
    (2 ≤ name.length → name.length ≤ 80 → 0 ≤ price →
      create_product s name price =
        .ok (insert_one s { name := name, price := price }))
  ∧ (¬ (2 ≤ name.length ∧ name.length ≤ 80 ∧ 0 ≤ price) →
      create_product s name price = .error .validationError) := by
  constructor
  · intro h1 h2 h3
    unfold create_product validateProduct
    rw [if_pos ⟨h1, h2⟩, if_pos h3]
  · intro h
    unfold create_product validateProduct
    by_cases hl : 2 ≤ name.length ∧ name.length ≤ 80
    · have hp : ¬ (0 ≤ price) := fun hp => h ⟨hl.1, hl.2, hp⟩
      rw [if_pos hl, if_neg hp]
    · rw [if_neg hl]

/-- C4 witness: the amended theorem at a valid body and at an invalid one. -/
theorem C4_witness :
    create_product emptyStore "Laptop" 999 =
      .ok (insert_one emptyStore { name := "Laptop", price := 999 })
  ∧ create_product emptyStore "" (-1) = .error .validationError :=
  ⟨(C4_amended emptyStore "Laptop" 999).1 (by decide) (by decide) (by decide),
   (C4_amended emptyStore "" (-1)).2 (by decide)⟩

/-! ### C5 — token issuance -/

/-- C5 counterexample: the claim says the issued token carries an issued-at
timestamp; `login` succeeds for alice but the encoded payload is exactly
`{"sub", "exp"}` — its issued-at claim is absent. -/
theorem C5_counterexample :
    login 0 "alice" "wonderland" = .ok (create_access_token 0 "alice")
  ∧ (create_access_token 0 "alice").payload.iat = none :=
  ⟨rfl, rfl⟩

/-- C5 (amended): issuing with a rejected credential fails with
`AuthenticationFailed`; on success the token is signed with the process-wide
secret and carries subject = username and expires-at = issuance time plus the
fixed 30-minute TTL, but no issued-at claim. -/
theorem C5_amended (now : Int) (username password : String) :
    (authenticate_user username password = none →
      login now username password = .error .authenticationFailed)
  ∧ (∀ u, authenticate_user username password = some u →
      login now username password =
        .ok { key := SECRET_KEY
              payload := { sub := some u, iat := none,
                           exp := now + ACCESS_TOKEN_EXPIRE_MINUTES * 60 } })
  ∧ (∀ u, authenticate_user username password = some u → u = username) := by
  refine ⟨?_, ?_, ?_⟩
  · intro h
    unfold login
    rw [h]
  · intro u h
    unfold login
    rw [h]
    rfl
  · intro u h
    unfold authenticate_user at h
    cases hf : fake_users_db.find? (fun x => x.1 = username) with
    | none => rw [hf] at h; cases h
    | some v =>
      rw [hf] at h
      simp only at h
      have hv : v.1 = username := by
        have := List.find?_some hf
        exact of_decide_eq_true this
      by_cases hw : verify_password password v.2 = true
      · rw [if_pos hw] at h
        cases h
        exact hv
      · rw [if_neg hw] at h
        cases h

/-- C5 witness: the amended theorem at a rejected and at an accepted
credential. -/
theorem C5_witness :
    login 5 "alice" "bad" = .error .authenticationFailed
  ∧ login 5 "alice" "wonderland" =
      .ok { key := SECRET_KEY
            payload := { sub := some "alice", iat := none,
                         exp := 5 + ACCESS_TOKEN_EXPIRE_MINUTES * 60 } }
  ∧ "alice" = "alice" :=
  ⟨(C5_amended 5 "alice" "bad").1 rfl,
   (C5_amended 5 "alice" "wonderland").2.1 "alice" rfl,
   (C5_amended 5 "alice" "wonderland").2.2 "alice" rfl⟩

/-! ### C2 — bearer-token gating -/

/-- C3 counterexample: the bound pair min = -2, max = -1 has min ≤ max, so
the claim says the list operation succeeds on both surfaces; the REST surface
rejects it (FastAPI `Query(None, ge=0.0)` refuses the negative bounds with a
validation error). -/
theorem C3_counterexample :
    ((-2 : Rat) ≤ -1)
  ∧ list_products emptyStore 100 0 "name" "asc" none (some (-2))
      (some (-1)) = .error .invalidValue :=
  ⟨by decide, rfl⟩

/-- C3 (amended): for NON-NEGATIVE bound pairs, min > max fails with
`InvalidRange` on both surfaces before any query and min ≤ max succeeds on
both; the compiled predicate accepts exactly the products with price in the
inclusive interval [min, max].  (For a negative bound the REST surface
instead fails with `InvalidValue`; the GraphQL surface applies only the
min ≤ max check.) -/
theorem C3_amended (s : DocStore) (mn mx : Rat) (p : Product) :
    (0 ≤ mn → 0 ≤ mx → mx < mn →
      list_products s 100 0 "name" "asc" none (some mn) (some mx) =
          .error .invalidRange
      ∧ gql_all_products s none (some mn) (some mx) 100 0 "name" "asc" =
          .error .invalidRange)
  ∧ (0 ≤ mn → 0 ≤ mx → mn ≤ mx →
      list_products s 100 0 "name" "asc" none (some mn) (some mx) =
          .ok (runFind s (buildQuery none (some mn) (some mx)) 0 100
                "name" 1)
      ∧ gql_all_products s none (some mn) (some mx) 100 0 "name" "asc" =
          .ok (runFind s (buildQuery none (some mn) (some mx)) 0 100
                "name" 1))
  ∧ (matchesQuery (buildQuery none (some mn) (some mx)) p = true ↔
      mn ≤ p.price ∧ p.price ≤ mx) := by
  have stepR : list_products s 100 0 "name" "asc" none (some mn) (some mx) =
      (if decide (mn < 0) = true then Except.error Err.invalidValue
       else if decide (mx < 0) = true then Except.error Err.invalidValue
       else if decide (mx < mn) = true then Except.error Err.invalidRange
       else Except.ok (runFind s (buildQuery none (some mn) (some mx)) 0 100
              "name" 1)) := rfl
  have stepG : gql_all_products s none (some mn) (some mx) 100 0 "name"
      "asc" =
      (if decide (mx < mn) = true then Except.error Err.invalidRange
       else Except.ok (runFind s (buildQuery none (some mn) (some mx)) 0 100
              "name" 1)) := rfl
  refine ⟨?_, ?_, ?_⟩
  · intro hmn hmx hlt
    have h1 : decide (mn < 0) = false := decide_eq_false (not_lt.mpr hmn)
    have h2 : decide (mx < 0) = false := decide_eq_false (not_lt.mpr hmx)
    have h3 : decide (mx < mn) = true := decide_eq_true hlt
    constructor
    · rw [stepR, h1, h2, h3]
      rfl
    · rw [stepG, h3]
      rfl
  · intro hmn hmx hle
    have h1 : decide (mn < 0) = false := decide_eq_false (not_lt.mpr hmn)
    have h2 : decide (mx < 0) = false := decide_eq_false (not_lt.mpr hmx)
    have h3 : decide (mx < mn) = false := decide_eq_false (not_lt.mpr hle)
    constructor
    · rw [stepR, h1, h2, h3]
      rfl
    · rw [stepG, h3]
      rfl
  · have hq : buildQuery none (some mn) (some mx) =
        { nameRegex := none,
          price := some { gte := some mn, lte := some mx } } := rfl
    unfold matchesQuery
    rw [hq]
    simp only [Bool.true_and, Bool.and_eq_true, decide_eq_true_eq]

/-- C3 witness: the amended theorem at the inverted pair (15, 10), at the
ordered pair (10, 15), and at a product of price 11 inside [10, 15]. -/
theorem C3_witness :
    (list_products store5 100 0 "name" "asc" none (some 15) (some 10) =
        .error .invalidRange
      ∧ gql_all_products store5 none (some 15) (some 10) 100 0 "name"
          "asc" = .error .invalidRange)
  ∧ (list_products store5 100 0 "name" "asc" none (some 10) (some 15) =
        .ok (runFind store5 (buildQuery none (some 10) (some 15)) 0 100
              "name" 1)
      ∧ gql_all_products store5 none (some 10) (some 15) 100 0 "name"
          "asc" =
        .ok (runFind store5 (buildQuery none (some 10) (some 15)) 0 100
              "name" 1))
  ∧ (matchesQuery (buildQuery none (some 10) (some 15))
        { name := "X", price := 11 } = true ↔
      (10 : Rat) ≤ 11 ∧ (11 : Rat) ≤ 15) :=
  ⟨(C3_amended store5 15 10 { name := "X", price := 11 }).1 (by decide)
     (by decide) (by decide),
   (C3_amended store5 10 15 { name := "X", price := 11 }).2.1 (by decide)
     (by decide) (by decide),
   (C3_amended store5 10 15 { name := "X", price := 11 }).2.2⟩

/-! ### C7 — empty and whitespace name filters -/

/-- C7 counterexample: the input " " is the empty string after trimming, so
the claim says the result equals the unfiltered result; the code's truthiness
check (`if name_contains:`) treats the non-empty string " " as a pattern, and
against a collection holding only "AB" the filtered result is empty while the
unfiltered result is not. -/
theorem C7_counterexample :
    pyStrip " " = ""
  ∧ list_products storeAB 100 0 "name" "asc" (some " ") none none = .ok []
  ∧ list_products storeAB 100 0 "name" "asc" none none none =
      .ok [{ name := "AB", price := 5 }] :=
  ⟨rfl, rfl, rfl⟩

/-- C7 (amended): only an absent input or the EXACT empty string is treated
as no name constraint (whitespace-only inputs are applied as patterns); for
a non-empty input free of regex metacharacters — where `$regex` is literal
matching — the compiled predicate matches case-insensitively by substring
containment.  (A metacharacter pattern such as "." is interpreted as a
regular expression, not as a substring.) -/
theorem C7_amended (s : DocStore) (nc : String) (p : Product) :
    (list_products s 100 0 "name" "asc" (some "") none none =
      list_products s 100 0 "name" "asc" none none none)
  ∧ (nc ≠ "" → regexLiteral nc = true →
      (matchesQuery (buildQuery (some nc) none none) p = true ↔
        (pyLower nc).toList <:+: (pyLower p.name).toList)) := by
  constructor
  · rfl
  · intro h _
    have hq : buildQuery (some nc) none none =
        { nameRegex := some nc, price := none } := by
      unfold buildQuery
      simp only
      rw [if_neg h]
      rfl
    rw [hq]
    show ((ciContains nc p.name && true) = true ↔ _)
    simp only [Bool.and_true, ciContains, decide_eq_true_eq]

/-- C7 witness: the amended theorem at the metacharacter-free pattern "b"
against the product named "AB". -/
theorem C7_witness :
    (list_products storeAB 100 0 "name" "asc" (some "") none none =
      list_products storeAB 100 0 "name" "asc" none none none)
  ∧ (matchesQuery (buildQuery (some "b") none none)
        { name := "AB", price := 5 } = true ↔
      (pyLower "b").toList <:+: (pyLower "AB").toList) :=
  ⟨(C7_amended storeAB "b" { name := "AB", price := 5 }).1,
   (C7_amended storeAB "b" { name := "AB", price := 5 }).2 (by decide)
     (by decide)⟩

/-! ### C8 — sort-order parameter casing -/

/-- C8 counterexample: "ASC" is a casing of "asc", so the claim says it is
accepted on either surface; the REST surface declares
`order: Literal["asc", "desc"]`, which matches case-sensitively, and rejects
"ASC" with a validation error on the order parameter. -/
theorem C8_counterexample :
    pyLower "ASC" = "asc"
  ∧ list_products emptyStore 100 0 "name" "ASC" none none none =
      .error .invalidOrder :=
  ⟨rfl, rfl⟩

/-- C8 (amended): the GraphQL surface interprets `order` case-insensitively
(any casing of "asc"/"desc" accepted, anything else `InvalidOrder`), but the
REST surface accepts exactly the lowercase literals "asc" and "desc" and
rejects every other value — other casings included — with a validation error
on the order parameter. -/
theorem C8_amended (s : DocStore) (order : String) :
    (pyLower order = "asc" ∨ pyLower order = "desc" →
      gql_all_products s none none none 100 0 "name" order =
        .ok (runFind s (buildQuery none none none) 0 100 "name"
              (if pyLower order = "asc" then 1 else -1)))
  ∧ (pyLower order ≠ "asc" → pyLower order ≠ "desc" →
      gql_all_products s none none none 100 0 "name" order =
        .error .invalidOrder)
  ∧ (order = "asc" ∨ order = "desc" →
      list_products s 100 0 "name" order none none none =
        .ok (runFind s (buildQuery none none none) 0 100 "name"
              (if order = "asc" then 1 else -1)))
  ∧ (order ≠ "asc" → order ≠ "desc" →
      list_products s 100 0 "name" order none none none =
        .error .invalidOrder) := by
  have stepG : gql_all_products s none none none 100 0 "name" order =
      (if pyLower order ≠ "asc" ∧ pyLower order ≠ "desc" then
         Except.error Err.invalidOrder
       else Except.ok (runFind s (buildQuery none none none) 0 100 "name"
              (if pyLower order = "asc" then 1 else -1))) := rfl
  have stepR : list_products s 100 0 "name" order none none none =
      (if order ≠ "asc" ∧ order ≠ "desc" then Except.error Err.invalidOrder
       else Except.ok (runFind s (buildQuery none none none) 0 100 "name"
              (if order = "asc" then 1 else -1))) := rfl
  refine ⟨?_, ?_, ?_, ?_⟩
  · intro h
    have hc : ¬ (pyLower order ≠ "asc" ∧ pyLower order ≠ "desc") := by
      rcases h with h | h <;> simp [h]
    rw [stepG, if_neg hc]
  · intro h1 h2
    rw [stepG, if_pos ⟨h1, h2⟩]
  · intro h
    have hc : ¬ (order ≠ "asc" ∧ order ≠ "desc") := by
      rcases h with h | h <;> simp [h]
    rw [stepR, if_neg hc]
  · intro h1 h2
    rw [stepR, if_pos ⟨h1, h2⟩]

/-- C8 witness: the amended theorem at "DeSc" and "up" on the GraphQL
surface and at "asc" and "down" on the REST surface. -/
theorem C8_witness :
    gql_all_products emptyStore none none none 100 0 "name" "DeSc" =
      .ok (runFind emptyStore (buildQuery none none none) 0 100 "name"
            (if pyLower "DeSc" = "asc" then 1 else -1))
  ∧ gql_all_products emptyStore none none none 100 0 "name" "up" =
      .error .invalidOrder
  ∧ list_products emptyStore 100 0 "name" "asc" none none none =
      .ok (runFind emptyStore (buildQuery none none none) 0 100 "name"
            (if "asc" = "asc" then 1 else -1))
  ∧ list_products emptyStore 100 0 "name" "down" none none none =
      .error .invalidOrder :=
  ⟨(C8_amended emptyStore "DeSc").1 (Or.inr rfl),
   (C8_amended emptyStore "up").2.1 (by decide) (by decide),
   (C8_amended emptyStore "asc").2.2.1 (Or.inl rfl),
   (C8_amended emptyStore "down").2.2.2 (by decide) (by decide)⟩

/-! ### C9 — negative price bounds -/

/-- C9 counterexample: a negative present minPrice on the GraphQL surface
does not fail with `InvalidValue` — the query is compiled and executed (here
returning the stored product), refuting the claim for "either surface". -/
theorem C9_counterexample :
    ((-5 : Rat) < 0)
  ∧ gql_all_products storeAB none (some (-5)) none 100 0 "name" "asc" =
      .ok [{ name := "AB", price := 5 }] :=
  ⟨by decide, rfl⟩

/-- C9 (amended): only the REST surface rejects a negative present bound —
in either position — with a validation error, before any collection query;
the GraphQL surface performs no negativity check on either bound and
compiles the negative bound into the predicate. -/
theorem C9_amended (s : DocStore) (mn : Rat) :
    (mn < 0 →
      list_products s 100 0 "name" "asc" none (some mn) none =
          .error .invalidValue
      ∧ list_products s 100 0 "name" "asc" none none (some mn) =
          .error .invalidValue)
  ∧ (mn < 0 →
      gql_all_products s none (some mn) none 100 0 "name" "asc" =
          .ok (runFind s (buildQuery none (some mn) none) 0 100 "name" 1)
      ∧ gql_all_products s none none (some mn) 100 0 "name" "asc" =
          .ok (runFind s (buildQuery none none (some mn)) 0 100
                "name" 1)) := by
  have step1 : list_products s 100 0 "name" "asc" none (some mn) none =
      (if decide (mn < 0) = true then Except.error Err.invalidValue
       else Except.ok (runFind s (buildQuery none (some mn) none) 0 100
              "name" 1)) := rfl
  have step2 : list_products s 100 0 "name" "asc" none none (some mn) =
      (if decide (mn < 0) = true then Except.error Err.invalidValue
       else Except.ok (runFind s (buildQuery none none (some mn)) 0 100
              "name" 1)) := rfl
  constructor
  · intro h
    have hd : decide (mn < 0) = true := decide_eq_true h
    constructor
    · rw [step1, hd]
      rfl
    · rw [step2, hd]
      rfl
  · intro _
    exact ⟨rfl, rfl⟩

/-- C9 witness: the amended theorem at bound -5 in both positions over the
one-product collection. -/
theorem C9_witness :
    (list_products storeAB 100 0 "name" "asc" none (some (-5)) none =
        .error .invalidValue
      ∧ list_products storeAB 100 0 "name" "asc" none none (some (-5)) =
        .error .invalidValue)
  ∧ (gql_all_products storeAB none (some (-5)) none 100 0 "name" "asc" =
        .ok (runFind storeAB (buildQuery none (some (-5)) none) 0 100
              "name" 1)
      ∧ gql_all_products storeAB none none (some (-5)) 100 0 "name" "asc" =
        .ok (runFind storeAB (buildQuery none none (some (-5))) 0 100
              "name" 1)) :=
  ⟨(C9_amended storeAB (-5)).1 (by decide),
   (C9_amended storeAB (-5)).2 (by decide)⟩

/-! ### C10 — secret_products is capped at three documents -/

/-- C10: every successful `secret_products` read returns the first three
documents of the collection — at most 3 products, whatever the collection
state.  The resolver (like this embedding) takes no paging, filter, or sort
parameter at all. -/
theorem C10_theorem (s : DocStore) (auth : String) (l : List Product)
    (h : secret_products s auth = .ok l) :
    l = (s.docs.map (fun d => d.2)).take 3 ∧ l.length ≤ 3 := by
  unfold secret_products at h
  cases hx : extract_valid_bearer_or_raise auth with
  | error e => rw [hx] at h; cases h
  | ok t =>
    rw [hx] at h
    simp only at h
    cases h
    exact ⟨rfl, List.length_take_le 3 _⟩

/-- C10 witness: the theorem on a five-document collection with the valid
bearer token: exactly the first three documents come back. -/
theorem C10_witness :
    (store5.docs.map (fun d => d.2)).take 3 =
      (store5.docs.map (fun d => d.2)).take 3
  ∧ ((store5.docs.map (fun d => d.2)).take 3).length ≤ 3 :=
  C10_theorem store5 "Bearer bearer-abc-123"
    ((store5.docs.map (fun d => d.2)).take 3) (by rfl)

/-! ### C6 — mutation round-trip and not-found behaviour -/

/-- After a `$set` of the fields of every document with identifier `oid`, a
lookup of `oid` finds the new fields (when any match existed). -/
theorem find?_id_set (l : List (Nat × Product)) (oid : Nat) (p : Product) :
    (l.map (fun d => if d.1 = oid then (d.1, p) else d)).find?
        (fun d => d.1 = oid) =
      (l.find? (fun d => d.1 = oid)).map (fun _ => (oid, p)) := by
  induction l with
  | nil => rfl
  | cons a as ih =>
    by_cases h : a.1 = oid
    · simp [List.find?_cons, h]
    · simp [List.find?_cons, h, ih]

/-- After filtering out identifier `oid`, a lookup of `oid` finds nothing. -/
theorem find?_filter_ne (l : List (Nat × Product)) (oid : Nat) :
    (l.filter (fun d => d.1 ≠ oid)).find? (fun d => d.1 = oid) = none := by
  induction l with
  | nil => rfl
  | cons a as ih =>
    by_cases h : a.1 = oid
    · simp [List.filter_cons, h, ih]
    · simp [List.filter_cons, List.find?_cons, h, ih]

/-- A lookup of `oid` in a list ending in an `oid` document succeeds. -/
theorem find?_append_self (l : List (Nat × Product)) (oid : Nat)
    (p : Product) :
    ((l ++ [(oid, p)]).find? (fun d => d.1 = oid)).isSome = true := by
  induction l with
  | nil => simp [List.find?_cons]
  | cons a as ih =>
    by_cases h : a.1 = oid
    · simp [List.find?_cons, h]
    · simp [List.find?_cons, h, ih]

/-- C6: under any successfully authenticated request, (1) create followed by
update of the returned identifier followed by a read yields the updated
product `p2`, not the created `p`; (2)-(3) after a successful delete, a
subsequent update or delete of the same identifier returns the non-error
"Product not found." mutation result and leaves the store unchanged. -/
theorem C6_theorem (decode : String → Except Unit Payload)
    (auth : Option String) (u : String)
    (hAuth : requireBearerUsername decode auth = .ok u)
    (s sDel delStore : DocStore) (p p2 : Product) (oid : Nat)
    (hDel : delete_product decode auth sDel (some oid) =
      .ok (delStore, { success := true, message := "Product deleted." })) :
    ((update_product decode auth (insert_one s p).1
        (some (insert_one s p).2) p2.name p2.price).map
        (fun r => (r.2, find_by_id r.1 (insert_one s p).2)) =
      .ok ({ success := true, message := "Product updated." }, some p2))
  ∧ update_product decode auth delStore (some oid) p2.name p2.price =
      .ok (delStore, { success := false, message := "Product not found." })
  ∧ delete_product decode auth delStore (some oid) =
      .ok (delStore, { success := false, message := "Product not found." }) := by
  have hstep : delete_product decode auth sDel (some oid) =
      (if (sDel.docs.find? (fun d => d.1 = oid)).isSome = true then
         Except.ok ({ docs := sDel.docs.filter (fun d => d.1 ≠ oid),
                      nextId := sDel.nextId },
                    { success := true, message := "Product deleted." })
       else Except.ok (sDel,
              { success := false, message := "Product not found." })) := by
    simp only [delete_product, hAuth, delete_one]
    by_cases hf : (sDel.docs.find? (fun d => d.1 = oid)).isSome = true
    · rw [if_pos hf, if_pos hf]
      rfl
    · rw [if_neg hf, if_neg hf]
      rfl
  rw [hstep] at hDel
  have hDelStore : delStore =
      { docs := sDel.docs.filter (fun d => d.1 ≠ oid),
        nextId := sDel.nextId } := by
    by_cases hf : (sDel.docs.find? (fun d => d.1 = oid)).isSome = true
    · rw [if_pos hf] at hDel
      simp only [Except.ok.injEq, Prod.mk.injEq] at hDel
      exact hDel.1.symm
    · rw [if_neg hf] at hDel
      simp at hDel
  refine ⟨?_, ?_, ?_⟩
  · have hmap := find?_id_set (s.docs ++ [(s.nextId, p)]) s.nextId
      { name := p2.name, price := p2.price }
    simp only [update_product, hAuth, insert_one, update_one, find_by_id,
      Except.map]
    rw [find?_append_self]
    simp only [if_true]
    rw [if_neg (by decide : ¬ ((1 : Nat) = 0))]
    simp only
    rw [hmap]
    rcases Option.isSome_iff_exists.mp
        (find?_append_self s.docs s.nextId p) with ⟨y, hy⟩
    rw [hy]
    rfl
  · subst hDelStore
    simp only [update_product, hAuth, update_one]
    rw [find?_filter_ne]
    rfl
  · subst hDelStore
    simp only [delete_product, hAuth, delete_one]
    rw [find?_filter_ne]
    rfl

/-- C6 witness: the theorem under the valid alice token, creating "First"
in the empty store, updating it to "Second", and deleting the one document
of `storeAB`. -/
theorem C6_witness :
    ((update_product (decodeWith SECRET_KEY 0 tokenEnv)
        (some "Bearer tok-alice")
        (insert_one emptyStore { name := "First", price := 1 }).1
        (some (insert_one emptyStore { name := "First", price := 1 }).2)
        "Second" 2).map
        (fun r => (r.2,
          find_by_id r.1 (insert_one emptyStore
            { name := "First", price := 1 }).2)) =
      .ok ({ success := true, message := "Product updated." },
           some { name := "Second", price := 2 }))
  ∧ update_product (decodeWith SECRET_KEY 0 tokenEnv)
      (some "Bearer tok-alice") { docs := [], nextId := 1 } (some 0)
      "Second" 2 =
      .ok ({ docs := [], nextId := 1 },
           { success := false, message := "Product not found." })
  ∧ delete_product (decodeWith SECRET_KEY 0 tokenEnv)
      (some "Bearer tok-alice") { docs := [], nextId := 1 } (some 0) =
      .ok ({ docs := [], nextId := 1 },
           { success := false, message := "Product not found." }) :=
  C6_theorem (decodeWith SECRET_KEY 0 tokenEnv) (some "Bearer tok-alice")
    "alice" rfl emptyStore storeAB { docs := [], nextId := 1 }
    { name := "First", price := 1 } { name := "Second", price := 2 } 0
    (by rfl)

end Bootcamp
